import Mathlib

/-!
Verification of the pomodoroflow-rs concurrent state-synchronization core.

Shallow embedding of the Rust sources:
  * `src/core/pomodoro.rs`  — phases, configuration, session state machine
  * `src/core/todo.rs`      — todo items, statistics
  * `src/core/state/app_state.rs` — shared state container and event channel
  * `src/async_utils/task_manager.rs` — named background-task registry
  * `src/core/error.rs`     — error taxonomy

Modelling conventions: Rust `u32`/`u64` counters and second counts become
`Nat` (all arithmetic here stays far below the machine bounds and no
subtraction underflows: `remaining -= 1` is guarded by `remaining > 0`);
`tokio::time::Instant` and `chrono::DateTime<Utc>` become an abstract `Nat`
timestamp supplied as an explicit `now` argument; `Result<T, AppError>`
becomes `Except AppError T`; Rust `&mut self` methods returning `Result<A>`
become functions `State -> Except AppError A × State` where the error branch
carries the unchanged state, mirroring that an early `return Err(..)` leaves
`self` untouched.  The tokio unbounded event channel is modelled by a
`channel_open` flag (the receiver is alive) plus the list of events accepted
so far; quotation marks inside Rust error-message literals are dropped.
-/

namespace Pomodoroflow

/-- `AppError` from `src/core/error.rs` (the variants reachable from the
embedded core; variants carrying external library errors are omitted). -/
inductive AppError where
  | Network (msg : String)
  | Authentication (msg : String)
  | NotFound (msg : String)
  | InvalidState (msg : String)
  | Validation (msg : String)
  | Timeout
  | TaskError (msg : String)
  | ChannelError (msg : String)
  | Other (msg : String)
deriving DecidableEq, Repr

/-- `PomodoroPhase` from `src/core/pomodoro.rs`. -/
inductive PomodoroPhase where
  | Work
  | ShortBreak
  | LongBreak
deriving DecidableEq, Repr

/-- `PomodoroPhase::next` (`src/core/pomodoro.rs:46-61`). -/
def PomodoroPhase.next (p : PomodoroPhase) (cycle_count cycles_until_long_break : Nat) :
    PomodoroPhase :=
  match p with
  | .Work =>
      if (cycle_count + 1) % cycles_until_long_break == 0 then .LongBreak else .ShortBreak
  | .ShortBreak => .Work
  | .LongBreak => .Work

/-- `PomodoroConfig` from `src/core/pomodoro.rs`. -/
structure PomodoroConfig where
  work_duration : Nat
  short_break_duration : Nat
  long_break_duration : Nat
  cycles_until_long_break : Nat
deriving DecidableEq, Repr

/-- `PomodoroConfig::default` (`src/core/pomodoro.rs:73-82`). -/
def PomodoroConfig.default : PomodoroConfig :=
  { work_duration := 1500
    short_break_duration := 300
    long_break_duration := 900
    cycles_until_long_break := 4 }

/-- `PomodoroConfig::get_duration` (`src/core/pomodoro.rs:112-118`). -/
def PomodoroConfig.get_duration (c : PomodoroConfig) (phase : PomodoroPhase) : Nat :=
  match phase with
  | .Work => c.work_duration
  | .ShortBreak => c.short_break_duration
  | .LongBreak => c.long_break_duration

/-- `PomodoroConfig::validate` (`src/core/pomodoro.rs:121-171`), with the
early-return chain rendered as nested conditionals. -/
def PomodoroConfig.validate (c : PomodoroConfig) : Except AppError Unit :=
  if c.work_duration < 60 then
    .error (AppError.Validation ("Work duration cannot be less than 1 minute"))
  else if c.work_duration > 7200 then
    .error (AppError.Validation ("Work duration cannot exceed 2 hours"))
  else if c.short_break_duration < 60 then
    .error (AppError.Validation ("Short break duration cannot be less than 1 minute"))
  else if c.short_break_duration > 1800 then
    .error (AppError.Validation ("Short break duration cannot exceed 30 minutes"))
  else if c.long_break_duration < 300 then
    .error (AppError.Validation ("Long break duration cannot be less than 5 minutes"))
  else if c.long_break_duration > 3600 then
    .error (AppError.Validation ("Long break duration cannot exceed 1 hour"))
  else if c.cycles_until_long_break < 2 then
    .error (AppError.Validation ("Long break interval cannot be less than 2 cycles"))
  else if c.cycles_until_long_break > 10 then
    .error (AppError.Validation ("Long break interval cannot exceed 10 cycles"))
  else
    .ok ()

/-- `PomodoroSession` from `src/core/pomodoro.rs:176-185`.  `started_at`
(`Option<Instant>`) is an optional abstract timestamp. -/
structure PomodoroSession where
  phase : PomodoroPhase
  duration : Nat
  remaining : Nat
  is_running : Bool
  cycle_count : Nat
  started_at : Option Nat
  config : PomodoroConfig
deriving DecidableEq, Repr

/-- `PomodoroSession::new` (`src/core/pomodoro.rs:222-233`). -/
def PomodoroSession.new (config : PomodoroConfig) : PomodoroSession :=
  { phase := .Work
    duration := config.work_duration
    remaining := config.work_duration
    is_running := false
    cycle_count := 0
    started_at := none
    config := config }

/-- `PomodoroSession::start` (`src/core/pomodoro.rs:236-244`); `Instant::now()`
is the explicit `now` argument. -/
def PomodoroSession.start (s : PomodoroSession) (now : Nat) :
    Except AppError Unit × PomodoroSession :=
  if s.is_running then
    (.error (AppError.InvalidState ("计时器已在运行中")), s)
  else
    (.ok (), { s with is_running := true, started_at := some now })

/-- `PomodoroSession::pause` (`src/core/pomodoro.rs:247-255`). -/
def PomodoroSession.pause (s : PomodoroSession) :
    Except AppError Unit × PomodoroSession :=
  if !s.is_running then
    (.error (AppError.InvalidState ("计时器未运行")), s)
  else
    (.ok (), { s with is_running := false, started_at := none })

/-- `PomodoroSession::reset` (`src/core/pomodoro.rs:258-263`). -/
def PomodoroSession.reset (s : PomodoroSession) :
    Except AppError Unit × PomodoroSession :=
  (.ok (), { s with remaining := s.duration, is_running := false, started_at := none })

/-- `PomodoroSession::switch_to_phase` (`src/core/pomodoro.rs:279-286`). -/
def PomodoroSession.switch_to_phase (s : PomodoroSession) (phase : PomodoroPhase) :
    Except AppError Unit × PomodoroSession :=
  (.ok (), { s with
      phase := phase
      duration := s.config.get_duration phase
      remaining := s.config.get_duration phase
      is_running := false
      started_at := none })

/-- `PomodoroSession::skip` (`src/core/pomodoro.rs:266-276`). -/
def PomodoroSession.skip (s : PomodoroSession) :
    Except AppError PomodoroPhase × PomodoroSession :=
  if s.is_running then
    (.error (AppError.InvalidState ("请先暂停计时器")), s)
  else
    let next_phase := s.phase.next s.cycle_count s.config.cycles_until_long_break
    let r := s.switch_to_phase next_phase
    (.ok next_phase, r.2)

/-- `PomodoroSession::complete_phase` (`src/core/pomodoro.rs:305-321`): stop
the timer, count the finished Work cycle, then switch to the next phase
computed from the already-incremented `cycle_count`. -/
def PomodoroSession.complete_phase (s : PomodoroSession) :
    Except AppError Unit × PomodoroSession :=
  let s1 := { s with is_running := false, started_at := none }
  let s2 :=
    if s1.phase == PomodoroPhase.Work then
      { s1 with cycle_count := s1.cycle_count + 1 }
    else s1
  let next_phase := s2.phase.next s2.cycle_count s2.config.cycles_until_long_break
  let r := s2.switch_to_phase next_phase
  (.ok (), r.2)

/-- `PomodoroSession::tick` (`src/core/pomodoro.rs:289-302`). -/
def PomodoroSession.tick (s : PomodoroSession) :
    Except AppError Bool × PomodoroSession :=
  if !s.is_running then
    (.ok false, s)
  else if s.remaining > 0 then
    (.ok false, { s with remaining := s.remaining - 1 })
  else
    let r := s.complete_phase
    match r.1 with
    | .ok _ => (.ok true, r.2)
    | .error e => (.error e, r.2)

/-- `PomodoroSession::update_config` (`src/core/pomodoro.rs:350-359`). -/
def PomodoroSession.update_config (s : PomodoroSession) (new_config : PomodoroConfig) :
    Except AppError Unit × PomodoroSession :=
  match new_config.validate with
  | .error e => (.error e, s)
  | .ok _ =>
      let s1 := { s with config := new_config }
      if !s1.is_running then
        (.ok (), { s1 with
            duration := s1.config.get_duration s1.phase
            remaining := s1.config.get_duration s1.phase })
      else
        (.ok (), s1)

/-- `TodoStatus` from `src/core/todo.rs`. -/
inductive TodoStatus where
  | Todo
  | InProgress
  | Done
deriving DecidableEq, Repr

/-- `Todo` from `src/core/todo.rs:63-70`; `DateTime<Utc>` is an abstract
`Nat` timestamp. -/
structure Todo where
  id : String
  title : String
  description : Option String
  status : TodoStatus
  created_at : Nat
  updated_at : Nat
deriving DecidableEq, Repr

/-- `Todo::update_title` (`src/core/todo.rs:87-90`); `Utc::now()` is the
explicit `now` argument. -/
def Todo.update_title (t : Todo) (title : String) (now : Nat) : Todo :=
  { t with title := title, updated_at := now }

/-- `Todo::update_description` (`src/core/todo.rs:93-96`). -/
def Todo.update_description (t : Todo) (description : Option String) (now : Nat) : Todo :=
  { t with description := description, updated_at := now }

/-- `Todo::update_status` (`src/core/todo.rs:99-102`). -/
def Todo.update_status (t : Todo) (status : TodoStatus) (now : Nat) : Todo :=
  { t with status := status, updated_at := now }

/-- `Todo::toggle_status` (`src/core/todo.rs:105-112`). -/
def Todo.toggle_status (t : Todo) (now : Nat) : Todo :=
  { t with
      status :=
        match t.status with
        | .Todo => .InProgress
        | .InProgress => .Done
        | .Done => .Todo
      updated_at := now }

/-- `Todo::is_done` (`src/core/todo.rs:115-117`). -/
def Todo.is_done (t : Todo) : Bool :=
  t.status == TodoStatus.Done

/-- `TodoUpdate` from `src/core/todo.rs:165-169` (`Some(None)` on the
description deletes it). -/
structure TodoUpdate where
  title : Option String
  description : Option (Option String)
  status : Option TodoStatus
deriving DecidableEq, Repr

/-- `TodoFilter` from `src/core/todo.rs:203-208`. -/
structure TodoFilter where
  status : Option TodoStatus
  search : Option String
  show_completed : Bool
  limit : Option Nat
deriving DecidableEq, Repr

/-- `TodoFilter::all` = `TodoFilter::default` (`src/core/todo.rs:210-224`). -/
def TodoFilter.all : TodoFilter :=
  { status := none, search := none, show_completed := true, limit := none }

/-- `TodoStats` from `src/core/todo.rs:309-314`. -/
structure TodoStats where
  total : Nat
  todo : Nat
  in_progress : Nat
  done : Nat
deriving DecidableEq, Repr

/-- One step of the accumulation loop inside `TodoStats::from_todos`. -/
def TodoStats.count_one (stats : TodoStats) (t : Todo) : TodoStats :=
  let stats := { stats with total := stats.total + 1 }
  match t.status with
  | .Todo => { stats with todo := stats.todo + 1 }
  | .InProgress => { stats with in_progress := stats.in_progress + 1 }
  | .Done => { stats with done := stats.done + 1 }

/-- `TodoStats::from_todos` (`src/core/todo.rs:318-337`). -/
def TodoStats.from_todos (todos : List Todo) : TodoStats :=
  todos.foldl TodoStats.count_one { total := 0, todo := 0, in_progress := 0, done := 0 }

/-- `UserConfig` from `src/core/state/app_state.rs:12-20`. -/
structure UserConfig where
  pomodoro_work_duration : Nat
  pomodoro_short_break_duration : Nat
  pomodoro_long_break_duration : Nat
  pomodoro_cycles_until_long_break : Nat
  notifications_enabled : Bool
  sound_enabled : Bool
  theme : String
deriving DecidableEq, Repr

/-- `AppEvent` from `src/core/state/app_state.rs:104-133`.  The
`PomodoroEvent(PomodoroEvent)` variant is kept payload-free here: its Rust
payload carries an `f32` progress value and no embedded operation produces
it. -/
inductive AppEvent where
  | TodoCreated (t : Todo)
  | TodoUpdated (t : Todo)
  | TodoDeleted (id : String)
  | TodoStatusChanged (id : String) (newStatus : String)
  | TodoBulkUpdated (todos : List Todo)
  | PomodoroStarted
  | PomodoroPaused
  | PomodoroResumed
  | PomodoroReset
  | PomodoroSkipped
  | PomodoroEventRaised
  | PomodoroConfigUpdated (c : PomodoroConfig)
  | UserConfigUpdated (c : UserConfig)
  | SettingsUpdated
  | FilterChanged (f : TodoFilter)
  | ThemeChanged (theme : String)
  | ErrorMessage (msg : String)
  | InfoMessage (msg : String)
  | MessageCleared
deriving DecidableEq, Repr

/-- `AppState` from `src/core/state/app_state.rs:38-47`. -/
structure AppState where
  todos : List Todo
  todo_filter : TodoFilter
  todo_stats : TodoStats
  pomodoro_session : Option PomodoroSession
  pomodoro_config : PomodoroConfig
  user_config : Option UserConfig
  error_message : Option String
  info_message : Option String
deriving DecidableEq, Repr

/-- `AppState::default` (`src/core/state/app_state.rs:49-62`). -/
def AppState.default : AppState :=
  { todos := []
    todo_filter := TodoFilter.all
    todo_stats := TodoStats.from_todos []
    pomodoro_session := none
    pomodoro_config := PomodoroConfig.default
    user_config := none
    error_message := none
    info_message := none }

/-- `AppStateManager` from `src/core/state/app_state.rs:157-164`.  The
`RwLock<AppState>` content is `state`; the unbounded event channel is the
`channel_open` flag (receiver still alive) together with the events it has
accepted so far.  The query channel and receiver cells play no part in the
claims and are omitted. -/
structure AppStateManager where
  state : AppState
  channel_open : Bool
  sent_events : List AppEvent
deriving DecidableEq, Repr

/-- `AppStateManager::send_event` (`src/core/state/app_state.rs:196-200`):
an unbounded-channel send succeeds unless the receiver is gone. -/
def AppStateManager.send_event (m : AppStateManager) (event : AppEvent) :
    Except AppError Unit × AppStateManager :=
  if m.channel_open then
    (.ok (), { m with sent_events := m.sent_events ++ [event] })
  else
    (.error (AppError.Other ("事件通道已关闭")), m)

/-- `AppStateManager::add_todo` (`src/core/state/app_state.rs:221-230`):
mutate under the write lock, then `send_event(..)?` propagates a publish
failure. -/
def AppStateManager.add_todo (m : AppStateManager) (todo : Todo) :
    Except AppError Unit × AppStateManager :=
  let todos := m.state.todos ++ [todo]
  let m1 := { m with state := { m.state with
      todos := todos
      todo_stats := TodoStats.from_todos todos } }
  let r := m1.send_event (.TodoCreated todo)
  match r.1 with
  | .ok _ => (.ok (), r.2)
  | .error e => (.error e, r.2)

/-- The `iter_mut().find(|t| t.id == id)` + in-place mutation pattern of
`update_todo`/`toggle_todo_status`: rewrite the first todo whose id matches
and report the rewritten todo. -/
def updateFirstTodo (todos : List Todo) (id : String) (f : Todo → Todo) :
    List Todo × Option Todo :=
  match todos with
  | [] => ([], none)
  | t :: rest =>
      if t.id == id then
        (f t :: rest, some (f t))
      else
        let r := updateFirstTodo rest id f
        (t :: r.1, r.2)

/-- The `if let` chain applied to the found todo inside
`AppStateManager::update_todo` (`src/core/state/app_state.rs:239-247`). -/
def applyTodoUpdate (updates : TodoUpdate) (now : Nat) (t : Todo) : Todo :=
  let t := match updates.title with
    | some title => t.update_title title now
    | none => t
  let t := match updates.description with
    | some description => t.update_description description now
    | none => t
  match updates.status with
  | some status => t.update_status status now
  | none => t

/-- `AppStateManager::update_todo` (`src/core/state/app_state.rs:233-260`).
When no todo matches, the state (todos and statistics) is untouched and no
event is sent. -/
def AppStateManager.update_todo (m : AppStateManager) (id : String)
    (updates : TodoUpdate) (now : Nat) : Except AppError (Option Todo) × AppStateManager :=
  let r := updateFirstTodo m.state.todos id (applyTodoUpdate updates now)
  match r.2 with
  | some todo =>
      let m1 := { m with state := { m.state with
          todos := r.1
          todo_stats := TodoStats.from_todos r.1 } }
      let s := m1.send_event (.TodoUpdated todo)
      (match s.1 with
       | .ok _ => (.ok (some todo), s.2)
       | .error e => (.error e, s.2))
  | none => (.ok none, m)

/-- The `position` + `remove` pattern of `delete_todo`: drop the first todo
whose id matches and report whether one was found. -/
def removeFirstTodo (todos : List Todo) (id : String) : List Todo × Bool :=
  match todos with
  | [] => ([], false)
  | t :: rest =>
      if t.id == id then
        (rest, true)
      else
        let r := removeFirstTodo rest id
        (t :: r.1, r.2)

/-- `AppStateManager::delete_todo` (`src/core/state/app_state.rs:263-280`). -/
def AppStateManager.delete_todo (m : AppStateManager) (id : String) :
    Except AppError Bool × AppStateManager :=
  let r := removeFirstTodo m.state.todos id
  if r.2 then
    let m1 := { m with state := { m.state with
        todos := r.1
        todo_stats := TodoStats.from_todos r.1 } }
    let s := m1.send_event (.TodoDeleted id)
    (match s.1 with
     | .ok _ => (.ok true, s.2)
     | .error e => (.error e, s.2))
  else
    (.ok false, m)

/-- `AppStateManager::toggle_todo_status` (`src/core/state/app_state.rs:283-301`). -/
def AppStateManager.toggle_todo_status (m : AppStateManager) (id : String) (now : Nat) :
    Except AppError (Option Todo) × AppStateManager :=
  let r := updateFirstTodo m.state.todos id (fun t => t.toggle_status now)
  match r.2 with
  | some todo =>
      let m1 := { m with state := { m.state with
          todos := r.1
          todo_stats := TodoStats.from_todos r.1 } }
      let s := m1.send_event (.TodoUpdated todo)
      (match s.1 with
       | .ok _ => (.ok (some todo), s.2)
       | .error e => (.error e, s.2))
  | none => (.ok none, m)

/-- `AppStateManager::bulk_update_todos` (`src/core/state/app_state.rs:304-313`);
the published event re-reads the freshly written todo list. -/
def AppStateManager.bulk_update_todos (m : AppStateManager) (todos : List Todo) :
    Except AppError Unit × AppStateManager :=
  let m1 := { m with state := { m.state with
      todos := todos
      todo_stats := TodoStats.from_todos todos } }
  let r := m1.send_event (.TodoBulkUpdated m1.state.todos)
  match r.1 with
  | .ok _ => (.ok (), r.2)
  | .error e => (.error e, r.2)

/-- `AppStateManager::set_pomodoro_session` (`src/core/state/app_state.rs:320-326`);
the publish result is discarded with `let _ =`. -/
def AppStateManager.set_pomodoro_session (m : AppStateManager)
    (session : PomodoroSession) : AppStateManager :=
  let m1 := { m with state := { m.state with pomodoro_session := some session } }
  (m1.send_event .PomodoroStarted).2

/-- `AppStateManager::update_pomodoro_config` (`src/core/state/app_state.rs:329-337`);
`send_event(..)?` propagates a publish failure. -/
def AppStateManager.update_pomodoro_config (m : AppStateManager)
    (config : PomodoroConfig) : Except AppError Unit × AppStateManager :=
  let m1 := { m with state := { m.state with pomodoro_config := config } }
  let r := m1.send_event (.PomodoroConfigUpdated config)
  match r.1 with
  | .ok _ => (.ok (), r.2)
  | .error e => (.error e, r.2)

/-- `AppStateManager::set_user_config` (`src/core/state/app_state.rs:344-351`);
the publish result is discarded. -/
def AppStateManager.set_user_config (m : AppStateManager) (config : UserConfig) :
    AppStateManager :=
  let m1 := { m with state := { m.state with user_config := some config } }
  (m1.send_event (.UserConfigUpdated config)).2

/-- `AppStateManager::set_error_message` (`src/core/state/app_state.rs:359-366`). -/
def AppStateManager.set_error_message (m : AppStateManager) (message : String) :
    AppStateManager :=
  let m1 := { m with state := { m.state with error_message := some message } }
  (m1.send_event (.ErrorMessage message)).2

/-- `AppStateManager::set_info_message` (`src/core/state/app_state.rs:369-376`). -/
def AppStateManager.set_info_message (m : AppStateManager) (message : String) :
    AppStateManager :=
  let m1 := { m with state := { m.state with info_message := some message } }
  (m1.send_event (.InfoMessage message)).2

/-- `AppStateManager::clear_messages` (`src/core/state/app_state.rs:379-386`),
inlining `AppState::clear_messages` (`src/core/state/app_state.rs:96-99`). -/
def AppStateManager.clear_messages (m : AppStateManager) : AppStateManager :=
  let m1 := { m with state := { m.state with
      error_message := none
      info_message := none } }
  (m1.send_event .MessageCleared).2

/-- `AppStateManager::set_todo_filter` (`src/core/state/app_state.rs:393-400`). -/
def AppStateManager.set_todo_filter (m : AppStateManager) (filter : TodoFilter) :
    AppStateManager :=
  let m1 := { m with state := { m.state with todo_filter := filter } }
  (m1.send_event (.FilterChanged filter)).2

/-- `TaskStatus` from `src/async_utils/task_manager.rs:14-20`. -/
inductive TaskStatus where
  | Pending
  | Running
  | Completed
  | Failed
  | Cancelled
deriving DecidableEq, Repr

/-- `TaskMetadata` from `src/async_utils/task_manager.rs:24-30`;
`std::time::Instant` is an abstract `Nat` timestamp. -/
structure TaskMetadata where
  name : String
  status : TaskStatus
  created_at : Nat
  started_at : Option Nat
  error : Option String
deriving DecidableEq, Repr

/-- `TaskMetadata::new` (`src/async_utils/task_manager.rs:33-41`). -/
def TaskMetadata.new (name : String) (now : Nat) : TaskMetadata :=
  { name := name
    status := .Pending
    created_at := now
    started_at := none
    error := none }

/-- `TaskManager` from `src/async_utils/task_manager.rs:46-49`: the
`HashMap<String, (JoinHandle, TaskMetadata)>` registry as an association
list keyed by the unique task name.  The runtime `JoinHandle` and the
shutdown channel are runtime objects outside the embedding. -/
structure TaskManager where
  tasks : List (String × TaskMetadata)
deriving DecidableEq, Repr

/-- `HashMap::contains_key` on the registry (also `TaskManager::exists`,
`src/async_utils/task_manager.rs:140-143`). -/
def TaskManager.contains_key (m : TaskManager) (name : String) : Bool :=
  m.tasks.any (fun p => p.1 == name)

/-- `TaskManager::spawn` (`src/async_utils/task_manager.rs:64-88`): reject a
duplicate name with InvalidState, otherwise record the new task's metadata.
The spawned future itself is a runtime object outside the embedding. -/
def TaskManager.spawn (m : TaskManager) (name : String) (now : Nat) :
    Except AppError Unit × TaskManager :=
  if m.tasks.any (fun p => p.1 == name) then
    (.error (AppError.InvalidState ("任务 " ++ name ++ " 已存在")), m)
  else
    (.ok (), { m with tasks := m.tasks ++ [(name, TaskMetadata.new name now)] })

/-! ### Spec-side predicates and shared sample states -/

/-- The spec's §3 bounds on a `TimerConfig`: work 60–7200s, short break
60–1800s, long break 300–3600s, cycles 2–10. -/
def configWithinBounds (c : PomodoroConfig) : Prop :=
  60 ≤ c.work_duration ∧ c.work_duration ≤ 7200 ∧
  60 ≤ c.short_break_duration ∧ c.short_break_duration ≤ 1800 ∧
  300 ≤ c.long_break_duration ∧ c.long_break_duration ≤ 3600 ∧
  2 ≤ c.cycles_until_long_break ∧ c.cycles_until_long_break ≤ 10

instance (c : PomodoroConfig) : Decidable (configWithinBounds c) := by
  unfold configWithinBounds
  infer_instance

/-- A fresh idle session under the default configuration. -/
def idleSession : PomodoroSession :=
  PomodoroSession.new PomodoroConfig.default

/-- The same session once started (running, start instant recorded). -/
def runningSession : PomodoroSession :=
  (idleSession.start 5).2

/-- A concrete todo item. -/
def sampleTodo : Todo :=
  { id := "t1"
    title := "T"
    description := some "D"
    status := .Todo
    created_at := 0
    updated_at := 0 }

/-! ### Helper lemmas -/

theorem validate_eq_ok_of_within (c : PomodoroConfig) (h : configWithinBounds c) :
    c.validate = .ok () := by
  obtain ⟨h1, h2, h3, h4, h5, h6, h7, h8⟩ := h
  unfold PomodoroConfig.validate
  repeat rw [if_neg (by omega)]

theorem validate_eq_validation_error_of_not_within (c : PomodoroConfig)
    (h : ¬ configWithinBounds c) :
    ∃ msg, c.validate = .error (AppError.Validation msg) := by
  unfold PomodoroConfig.validate
  by_cases h1 : c.work_duration < 60
  · rw [if_pos h1]; exact ⟨_, rfl⟩
  rw [if_neg h1]
  by_cases h2 : c.work_duration > 7200
  · rw [if_pos h2]; exact ⟨_, rfl⟩
  rw [if_neg h2]
  by_cases h3 : c.short_break_duration < 60
  · rw [if_pos h3]; exact ⟨_, rfl⟩
  rw [if_neg h3]
  by_cases h4 : c.short_break_duration > 1800
  · rw [if_pos h4]; exact ⟨_, rfl⟩
  rw [if_neg h4]
  by_cases h5 : c.long_break_duration < 300
  · rw [if_pos h5]; exact ⟨_, rfl⟩
  rw [if_neg h5]
  by_cases h6 : c.long_break_duration > 3600
  · rw [if_pos h6]; exact ⟨_, rfl⟩
  rw [if_neg h6]
  by_cases h7 : c.cycles_until_long_break < 2
  · rw [if_pos h7]; exact ⟨_, rfl⟩
  rw [if_neg h7]
  by_cases h8 : c.cycles_until_long_break > 10
  · rw [if_pos h8]; exact ⟨_, rfl⟩
  exact absurd ⟨by omega, by omega, by omega, by omega, by omega, by omega, by omega,
    by omega⟩ h

/-! ### Claim theorems -/

/-- C4: `PomodoroConfig::validate` succeeds for every configuration with
`work_duration` in [60, 7200], `short_break_duration` in [60, 1800],
`long_break_duration` in [300, 3600] and `cycles_until_long_break` in
[2, 10], and fails with a Validation error whenever any one of these fields
lies outside its window. -/
theorem validate_succeeds_iff_within_bounds (c : PomodoroConfig) :
    (configWithinBounds c → c.validate = .ok ()) ∧
    (¬ configWithinBounds c → ∃ msg, c.validate = .error (AppError.Validation msg)) :=
  ⟨validate_eq_ok_of_within c, validate_eq_validation_error_of_not_within c⟩

/-- Witness for C4: the default configuration is within bounds and
validates; shrinking the work duration to 30s leaves the bounds and
produces a Validation error. -/
theorem validate_succeeds_iff_within_bounds_witness :
    PomodoroConfig.validate
      { work_duration := 1500, short_break_duration := 300,
        long_break_duration := 900, cycles_until_long_break := 4 } = .ok () ∧
    ∃ msg, PomodoroConfig.validate
      { work_duration := 30, short_break_duration := 300,
        long_break_duration := 900, cycles_until_long_break := 4 } =
        .error (AppError.Validation msg) :=
  ⟨(validate_succeeds_iff_within_bounds _).1 (by decide),
   (validate_succeeds_iff_within_bounds _).2 (by decide)⟩

/-- C5: `start()` fails with an InvalidState error exactly when the session
is already running, leaving the session unchanged on failure, and on
success sets `is_running` and records the start instant; `pause()` fails
with an InvalidState error exactly when the session is not running, leaving
the session unchanged on failure, and on success clears `is_running` and
the start instant. -/
theorem start_pause_spec (s : PomodoroSession) (now : Nat) :
    (s.is_running = true →
      s.start now = (.error (AppError.InvalidState ("计时器已在运行中")), s)) ∧
    (s.is_running = false →
      s.start now = (.ok (), { s with is_running := true, started_at := some now })) ∧
    (s.is_running = false →
      s.pause = (.error (AppError.InvalidState ("计时器未运行")), s)) ∧
    (s.is_running = true →
      s.pause = (.ok (), { s with is_running := false, started_at := none })) := by
  cases h : s.is_running <;>
    simp [PomodoroSession.start, PomodoroSession.pause, h]

/-- Witness for C5: the four cases evaluated on a concrete idle session and
on the same session once started. -/
theorem start_pause_spec_witness :
    runningSession.start 7 =
      (.error (AppError.InvalidState ("计时器已在运行中")), runningSession) ∧
    idleSession.start 7 =
      (.ok (), { idleSession with is_running := true, started_at := some 7 }) ∧
    idleSession.pause =
      (.error (AppError.InvalidState ("计时器未运行")), idleSession) ∧
    runningSession.pause =
      (.ok (), { runningSession with is_running := false, started_at := none }) :=
  ⟨(start_pause_spec runningSession 7).1 (by decide),
   (start_pause_spec idleSession 7).2.1 (by decide),
   (start_pause_spec idleSession 7).2.2.1 (by decide),
   (start_pause_spec runningSession 7).2.2.2 (by decide)⟩

/-- C7: `TaskManager::spawn` fails with an InvalidState error whenever a
task of that name is already registered, leaving the registry unaltered;
with a fresh name it succeeds and the name becomes present in the
registry. -/
theorem spawn_spec (m : TaskManager) (name : String) (now : Nat) :
    (m.contains_key name = true →
      ∃ msg, m.spawn name now = (.error (AppError.InvalidState msg), m)) ∧
    (m.contains_key name = false →
      (m.spawn name now).1 = .ok () ∧
      (m.spawn name now).2.contains_key name = true) := by
  constructor
  · intro h
    unfold TaskManager.spawn
    rw [if_pos (by simpa [TaskManager.contains_key] using h)]
    exact ⟨_, rfl⟩
  · intro h
    have h' : (m.tasks.any fun p => p.1 == name) = false := h
    unfold TaskManager.spawn
    rw [if_neg (by simp [h'])]
    refine ⟨rfl, ?_⟩
    simp [TaskManager.contains_key]

/-- Witness for C7: spawning "backup" twice — the registry rejects the
second spawn and keeps the first entry. -/
theorem spawn_spec_witness :
    (∃ msg, (TaskManager.spawn { tasks := [] } "backup" 0).2.spawn "backup" 1 =
      (.error (AppError.InvalidState msg),
       (TaskManager.spawn { tasks := [] } "backup" 0).2)) ∧
    (TaskManager.spawn { tasks := [] } "backup" 0).1 = .ok () ∧
    (TaskManager.spawn { tasks := [] } "backup" 0).2.contains_key "backup" = true :=
  ⟨(spawn_spec (TaskManager.spawn { tasks := [] } "backup" 0).2 "backup" 1).1 (by decide),
   (spawn_spec { tasks := [] } "backup" 0).2 (by decide)⟩

/-- C10: `Todo::toggle_status` advances the status along the fixed cycle
Todo → InProgress → Done → Todo, so three consecutive applications restore
the original status value. -/
theorem toggle_status_cycle (t : Todo) (n1 n2 n3 : Nat) :
    (t.toggle_status n1).status =
      (match t.status with
       | TodoStatus.Todo => TodoStatus.InProgress
       | TodoStatus.InProgress => TodoStatus.Done
       | TodoStatus.Done => TodoStatus.Todo) ∧
    (((t.toggle_status n1).toggle_status n2).toggle_status n3).status = t.status := by
  obtain ⟨id, title, description, status, created_at, updated_at⟩ := t
  cases status <;> exact ⟨rfl, rfl⟩

/-- C3: `tick()` on a non-running session changes nothing and reports "not
completed"; on a running session with time left it decrements `remaining`
by exactly one and reports "not completed"; on a running session whose
`remaining` has reached zero it performs phase completion — incrementing
`cycle_count` only if the finished phase was Work, switching to the next
phase and resetting duration/remaining/running for it — and reports "phase
completed" exactly in that case. -/
theorem tick_spec (s : PomodoroSession) :
    (s.is_running = false → s.tick = (.ok false, s)) ∧
    (s.is_running = true → 0 < s.remaining →
      s.tick = (.ok false, { s with remaining := s.remaining - 1 })) ∧
    (s.is_running = true → s.remaining = 0 →
      s.tick.1 = .ok true ∧
      s.tick.2.cycle_count =
        (if s.phase = PomodoroPhase.Work then s.cycle_count + 1 else s.cycle_count) ∧
      s.tick.2.phase = s.phase.next s.tick.2.cycle_count s.config.cycles_until_long_break ∧
      s.tick.2.duration = s.config.get_duration s.tick.2.phase ∧
      s.tick.2.remaining = s.tick.2.duration ∧
      s.tick.2.is_running = false ∧
      s.tick.2.started_at = none ∧
      s.tick.2.config = s.config) := by
  refine ⟨?_, ?_, ?_⟩
  · intro h
    simp [PomodoroSession.tick, h]
  · intro h hr
    simp [PomodoroSession.tick, h, hr]
  · intro h hr
    simp only [PomodoroSession.tick, PomodoroSession.complete_phase,
      PomodoroSession.switch_to_phase, h, hr, Bool.not_true, Bool.false_eq_true,
      if_false, lt_irrefl, beq_iff_eq]
    by_cases hp : s.phase = PomodoroPhase.Work <;> simp [hp]

/-- Witness for C3: evaluated on a paused session, on a freshly started
session, and on a running session whose remaining time has reached zero. -/
theorem tick_spec_witness :
    idleSession.tick = (.ok false, idleSession) ∧
    runningSession.tick =
      (.ok false, { runningSession with remaining := runningSession.remaining - 1 }) ∧
    ({ runningSession with remaining := 0 }.tick.1 = .ok true ∧
      { runningSession with remaining := 0 }.tick.2.cycle_count = 1) := by
  refine ⟨(tick_spec idleSession).1 (by decide),
    (tick_spec runningSession).2.1 (by decide) (by decide), ?_, ?_⟩
  · exact ((tick_spec { runningSession with remaining := 0 }).2.2 (by decide) (by decide)).1
  · have hc :=
      ((tick_spec { runningSession with remaining := 0 }).2.2 (by decide) (by decide)).2.1
    rw [hc]
    decide

/-- C6: `update_config(cfg)` with an out-of-bounds `cfg` fails with a
Validation error leaving the whole session unchanged; with a valid `cfg` it
replaces the stored config, and additionally sets duration and remaining to
the new config's duration for the current phase when the session is not
running, while a running session keeps phase, duration, remaining and
`is_running` untouched. -/
theorem update_config_spec (s : PomodoroSession) (cfg : PomodoroConfig) :
    (¬ configWithinBounds cfg →
      ∃ msg, s.update_config cfg = (.error (AppError.Validation msg), s)) ∧
    (configWithinBounds cfg →
      (s.update_config cfg).1 = .ok () ∧
      (s.update_config cfg).2.config = cfg ∧
      (s.is_running = false →
        (s.update_config cfg).2.duration = cfg.get_duration s.phase ∧
        (s.update_config cfg).2.remaining = cfg.get_duration s.phase) ∧
      (s.is_running = true →
        (s.update_config cfg).2.phase = s.phase ∧
        (s.update_config cfg).2.duration = s.duration ∧
        (s.update_config cfg).2.remaining = s.remaining ∧
        (s.update_config cfg).2.is_running = true)) := by
  constructor
  · intro h
    obtain ⟨msg, hm⟩ := validate_eq_validation_error_of_not_within cfg h
    exact ⟨msg, by simp [PomodoroSession.update_config, hm]⟩
  · intro h
    have hv := validate_eq_ok_of_within cfg h
    cases hrun : s.is_running <;>
      simp [PomodoroSession.update_config, hv, hrun]

/-- Witness for C6: a 90-minute work window is accepted and resizes the idle
session's current phase; an out-of-bounds 30s work duration is rejected and
leaves a running session untouched. -/
theorem update_config_spec_witness :
    (idleSession.update_config
        { work_duration := 5400, short_break_duration := 300,
          long_break_duration := 900, cycles_until_long_break := 4 }).2.duration = 5400 ∧
    ∃ msg, runningSession.update_config
        { work_duration := 30, short_break_duration := 300,
          long_break_duration := 900, cycles_until_long_break := 4 } =
      (.error (AppError.Validation msg), runningSession) := by
  constructor
  · have hd := (((update_config_spec idleSession
      { work_duration := 5400, short_break_duration := 300,
        long_break_duration := 900, cycles_until_long_break := 4 }).2
      (by decide)).2.2.1 (by decide)).1
    rw [hd]
    decide
  · exact (update_config_spec runningSession
      { work_duration := 30, short_break_duration := 300,
        long_break_duration := 900, cycles_until_long_break := 4 }).1 (by decide)

/-- The spec's §3 session invariant: `remaining <= duration`, and a running
session has its running-since marker set. -/
def SessionInv (s : PomodoroSession) : Prop :=
  s.remaining ≤ s.duration ∧ (s.is_running = true → s.started_at ≠ none)

/-- C8: every session operation (`new`, `start`, `pause`, `reset`, `skip`,
`switch_to_phase`, `tick`, `update_config`) preserves the invariant
`remaining <= duration` together with "running implies the start instant is
set". -/
theorem operations_preserve_invariant (cfg ncfg : PomodoroConfig)
    (s : PomodoroSession) (phase : PomodoroPhase) (now : Nat)
    (h : SessionInv s) :
    SessionInv (PomodoroSession.new cfg) ∧
    SessionInv (s.start now).2 ∧
    SessionInv s.pause.2 ∧
    SessionInv s.reset.2 ∧
    SessionInv s.skip.2 ∧
    SessionInv (s.switch_to_phase phase).2 ∧
    SessionInv s.tick.2 ∧
    SessionInv (s.update_config ncfg).2 := by
  obtain ⟨h1, h2⟩ := h
  simp only [SessionInv]
  refine ⟨⟨Nat.le_refl _, by simp [PomodoroSession.new]⟩, ?_, ?_, ?_, ?_, ?_, ?_, ?_⟩
  · cases hrun : s.is_running
    · simp [PomodoroSession.start, hrun]
      exact h1
    · simp [PomodoroSession.start, hrun]
      exact ⟨h1, fun hs => h2 hrun hs⟩
  · cases hrun : s.is_running
    · simp [PomodoroSession.pause, hrun]
      exact h1
    · simp [PomodoroSession.pause, hrun]
      exact h1
  · simp [PomodoroSession.reset]
  · cases hrun : s.is_running
    · simp [PomodoroSession.skip, PomodoroSession.switch_to_phase, hrun]
    · simp [PomodoroSession.skip, hrun]
      exact ⟨h1, fun hs => h2 hrun hs⟩
  · simp [PomodoroSession.switch_to_phase]
  · cases hrun : s.is_running
    · simp [PomodoroSession.tick, hrun]
      exact h1
    · rcases Nat.eq_zero_or_pos s.remaining with hr | hr
      · simp [PomodoroSession.tick, hrun, hr, PomodoroSession.complete_phase,
          PomodoroSession.switch_to_phase]
      · simp [PomodoroSession.tick, hrun, hr]
        exact ⟨by omega, fun hs => h2 hrun hs⟩
  · cases hval : ncfg.validate with
    | error e =>
        simp [PomodoroSession.update_config, hval]
        exact ⟨h1, fun hr hs => h2 hr hs⟩
    | ok u =>
        cases hrun : s.is_running
        · simp [PomodoroSession.update_config, hval, hrun]
        · simp [PomodoroSession.update_config, hval, hrun]
          exact ⟨h1, fun hs => h2 hrun hs⟩

/-- Witness for C8: the invariant evaluated through the operations on a
concrete running session. -/
theorem operations_preserve_invariant_witness :
    SessionInv runningSession ∧ SessionInv runningSession.tick.2 :=
  ⟨⟨by decide, by decide⟩,
   (operations_preserve_invariant PomodoroConfig.default PomodoroConfig.default
      runningSession PomodoroPhase.Work 0 ⟨by decide, by decide⟩).2.2.2.2.2.2.1⟩

/-! ### Todo-lookup lemmas for the state container -/

theorem updateFirstTodo_not_found (todos : List Todo) (id : String) (f : Todo → Todo)
    (h : ∀ t ∈ todos, t.id ≠ id) : updateFirstTodo todos id f = (todos, none) := by
  induction todos with
  | nil => rfl
  | cons t rest ih =>
      have ht : (t.id == id) = false := by
        simpa using h t (List.mem_cons_self t rest)
      simp [updateFirstTodo, ht, ih (fun u hu => h u (List.mem_cons_of_mem t hu))]

theorem removeFirstTodo_not_found (todos : List Todo) (id : String)
    (h : ∀ t ∈ todos, t.id ≠ id) : removeFirstTodo todos id = (todos, false) := by
  induction todos with
  | nil => rfl
  | cons t rest ih =>
      have ht : (t.id == id) = false := by
        simpa using h t (List.mem_cons_self t rest)
      simp [removeFirstTodo, ht, ih (fun u hu => h u (List.mem_cons_of_mem t hu))]

theorem updateFirstTodo_found (todos : List Todo) (id : String) (f : Todo → Todo)
    (h : ∃ t ∈ todos, t.id = id) : ∃ u, (updateFirstTodo todos id f).2 = some u := by
  induction todos with
  | nil => simp at h
  | cons t rest ih =>
      by_cases ht : t.id = id
      · exact ⟨f t, by simp [updateFirstTodo, ht]⟩
      · obtain ⟨u, hu, hid⟩ := h
        rcases List.mem_cons.mp hu with rfl | hmem
        · exact absurd hid ht
        · obtain ⟨v, hv⟩ := ih ⟨u, hmem, hid⟩
          exact ⟨v, by simp [updateFirstTodo, ht, hv]⟩

theorem removeFirstTodo_found (todos : List Todo) (id : String)
    (h : ∃ t ∈ todos, t.id = id) : (removeFirstTodo todos id).2 = true := by
  induction todos with
  | nil => simp at h
  | cons t rest ih =>
      by_cases ht : t.id = id
      · simp [removeFirstTodo, ht]
      · obtain ⟨u, hu, hid⟩ := h
        rcases List.mem_cons.mp hu with rfl | hmem
        · exact absurd hid ht
        · simp [removeFirstTodo, ht, ih ⟨u, hmem, hid⟩]

/-- `send_event` on a closed channel: the error is reported and the manager
is unchanged. -/
theorem send_event_closed (m : AppStateManager) (e : AppEvent)
    (hc : m.channel_open = false) :
    m.send_event e = (.error (AppError.Other ("事件通道已关闭")), m) := by
  simp [AppStateManager.send_event, hc]

/-- A state manager with no todos and a live event channel. -/
def emptyMgr : AppStateManager :=
  { state := AppState.default, channel_open := true, sent_events := [] }

/-- A state manager whose event receiver has been dropped. -/
def closedMgr : AppStateManager :=
  { state := AppState.default, channel_open := false, sent_events := [] }

/-- A concrete user configuration. -/
def sampleUserConfig : UserConfig :=
  { pomodoro_work_duration := 1500
    pomodoro_short_break_duration := 300
    pomodoro_long_break_duration := 900
    pomodoro_cycles_until_long_break := 4
    notifications_enabled := true
    sound_enabled := true
    theme := "light" }

/-- C9: when no todo with the given id exists, `update_todo` and
`toggle_todo_status` return Ok(None) and `delete_todo` returns Ok(false) —
not a NotFound error — and the whole manager (todo list, statistics, event
log) is left unchanged. -/
theorem missing_id_spec (m : AppStateManager) (id : String) (updates : TodoUpdate)
    (now : Nat) (h : ∀ t ∈ m.state.todos, t.id ≠ id) :
    m.update_todo id updates now = (.ok none, m) ∧
    m.toggle_todo_status id now = (.ok none, m) ∧
    m.delete_todo id = (.ok false, m) := by
  have h1 := updateFirstTodo_not_found m.state.todos id (applyTodoUpdate updates now) h
  have h2 := updateFirstTodo_not_found m.state.todos id (fun t => t.toggle_status now) h
  have h3 := removeFirstTodo_not_found m.state.todos id h
  refine ⟨?_, ?_, ?_⟩
  · simp [AppStateManager.update_todo, h1]
  · simp [AppStateManager.toggle_todo_status, h2]
  · simp [AppStateManager.delete_todo, h3]

/-- Witness for C9: the three lookups on a manager holding no todos. -/
theorem missing_id_spec_witness :
    emptyMgr.update_todo "x" { title := none, description := none, status := none } 0 =
      (.ok none, emptyMgr) ∧
    emptyMgr.toggle_todo_status "x" 0 = (.ok none, emptyMgr) ∧
    emptyMgr.delete_todo "x" = (.ok false, emptyMgr) :=
  missing_id_spec emptyMgr "x" { title := none, description := none, status := none } 0
    (by simp [emptyMgr, AppState.default])

/-- C2 counterexample: publishing on a closed channel after `add_todo`
propagates the error to the caller — the claim's "still returns success"
fails — even though the mutation itself remains applied. -/
theorem publish_failure_counterexample :
    (closedMgr.add_todo sampleTodo).1 = .error (AppError.Other ("事件通道已关闭")) ∧
    (closedMgr.add_todo sampleTodo).1 ≠ .ok () ∧
    (closedMgr.add_todo sampleTodo).2.state.todos = [sampleTodo] := by
  refine ⟨rfl, ?_, rfl⟩
  intro hcontra
  exact Except.noConfusion ((rfl : (closedMgr.add_todo sampleTodo).1 =
    .error (AppError.Other ("事件通道已关闭"))).symm.trans hcontra)

/-- C2 amended: with a closed event channel, every mutation is still applied
(the resulting state equals the one an open-channel run produces), but the
Result-returning mutators — `add_todo`, `bulk_update_todos`,
`update_pomodoro_config`, and `update_todo`/`toggle_todo_status`/
`delete_todo` whenever the id is present — propagate the publish failure to
the caller; only the setters without a return value (`set_user_config`, the
message setters and the filter setter) swallow it. -/
theorem publish_failure_spec (m : AppStateManager) (hc : m.channel_open = false)
    (todo : Todo) (todos : List Todo) (id : String) (updates : TodoUpdate) (now : Nat)
    (cfg : PomodoroConfig) (ucfg : UserConfig) (msg : String) (filter : TodoFilter) :
    ((m.add_todo todo).1 = .error (AppError.Other ("事件通道已关闭")) ∧
      (m.add_todo todo).2.state = ({ m with channel_open := true }.add_todo todo).2.state) ∧
    ((m.bulk_update_todos todos).1 = .error (AppError.Other ("事件通道已关闭")) ∧
      (m.bulk_update_todos todos).2.state =
        ({ m with channel_open := true }.bulk_update_todos todos).2.state) ∧
    ((m.update_pomodoro_config cfg).1 = .error (AppError.Other ("事件通道已关闭")) ∧
      (m.update_pomodoro_config cfg).2.state =
        ({ m with channel_open := true }.update_pomodoro_config cfg).2.state) ∧
    (((∃ t ∈ m.state.todos, t.id = id) →
        (m.update_todo id updates now).1 = .error (AppError.Other ("事件通道已关闭"))) ∧
      (m.update_todo id updates now).2.state =
        ({ m with channel_open := true }.update_todo id updates now).2.state) ∧
    (((∃ t ∈ m.state.todos, t.id = id) →
        (m.toggle_todo_status id now).1 = .error (AppError.Other ("事件通道已关闭"))) ∧
      (m.toggle_todo_status id now).2.state =
        ({ m with channel_open := true }.toggle_todo_status id now).2.state) ∧
    (((∃ t ∈ m.state.todos, t.id = id) →
        (m.delete_todo id).1 = .error (AppError.Other ("事件通道已关闭"))) ∧
      (m.delete_todo id).2.state =
        ({ m with channel_open := true }.delete_todo id).2.state) ∧
    (m.set_user_config ucfg).state =
      ({ m with channel_open := true }.set_user_config ucfg).state ∧
    (m.set_error_message msg).state =
      ({ m with channel_open := true }.set_error_message msg).state ∧
    (m.set_info_message msg).state =
      ({ m with channel_open := true }.set_info_message msg).state ∧
    (m.set_todo_filter filter).state =
      ({ m with channel_open := true }.set_todo_filter filter).state := by
  refine ⟨?_, ?_, ?_, ?_, ?_, ?_, ?_, ?_, ?_, ?_⟩
  · constructor <;>
      simp [AppStateManager.add_todo, AppStateManager.send_event, hc]
  · constructor <;>
      simp [AppStateManager.bulk_update_todos, AppStateManager.send_event, hc]
  · constructor <;>
      simp [AppStateManager.update_pomodoro_config, AppStateManager.send_event, hc]
  · constructor
    · intro hex
      obtain ⟨u, hu⟩ :=
        updateFirstTodo_found m.state.todos id (applyTodoUpdate updates now) hex
      simp [AppStateManager.update_todo, hu, AppStateManager.send_event, hc]
    · cases hu : (updateFirstTodo m.state.todos id (applyTodoUpdate updates now)).2 <;>
        simp [AppStateManager.update_todo, hu, AppStateManager.send_event, hc]
  · constructor
    · intro hex
      obtain ⟨u, hu⟩ :=
        updateFirstTodo_found m.state.todos id (fun t => t.toggle_status now) hex
      simp [AppStateManager.toggle_todo_status, hu, AppStateManager.send_event, hc]
    · cases hu : (updateFirstTodo m.state.todos id (fun t => t.toggle_status now)).2 <;>
        simp [AppStateManager.toggle_todo_status, hu, AppStateManager.send_event, hc]
  · constructor
    · intro hex
      have hu := removeFirstTodo_found m.state.todos id hex
      simp [AppStateManager.delete_todo, hu, AppStateManager.send_event, hc]
    · cases hu : (removeFirstTodo m.state.todos id).2 <;>
        simp [AppStateManager.delete_todo, hu, AppStateManager.send_event, hc]
  · simp [AppStateManager.set_user_config, AppStateManager.send_event, hc]
  · simp [AppStateManager.set_error_message, AppStateManager.send_event, hc]
  · simp [AppStateManager.set_info_message, AppStateManager.send_event, hc]
  · simp [AppStateManager.set_todo_filter, AppStateManager.send_event, hc]

/-- Witness for C2 (amended): evaluated on the concrete closed-channel
manager. -/
theorem publish_failure_spec_witness :
    (closedMgr.update_pomodoro_config PomodoroConfig.default).1 =
      .error (AppError.Other ("事件通道已关闭")) ∧
    (closedMgr.update_pomodoro_config PomodoroConfig.default).2.state =
      ({ closedMgr with
          channel_open := true }.update_pomodoro_config PomodoroConfig.default).2.state :=
  (publish_failure_spec closedMgr rfl sampleTodo [] "x"
    { title := none, description := none, status := none } 0
    PomodoroConfig.default sampleUserConfig "m" TodoFilter.all).2.2.1

/-! ### Driving a session through whole phases, for the long-break schedule -/

/-- Run `n` consecutive `tick()` calls, keeping only the session state. -/
def runTicks (s : PomodoroSession) : Nat → PomodoroSession
  | 0 => s
  | n + 1 => runTicks s.tick.2 n

/-- A valid configuration with one-minute work and short-break phases and
`cycles_until_long_break = 4`. -/
def cfg60 : PomodoroConfig :=
  { work_duration := 60
    short_break_duration := 60
    long_break_duration := 300
    cycles_until_long_break := 4 }

/-- Start the session and tick through a full 60-second phase: 60
decrementing ticks plus the completing tick (`tick()` completes the phase
on the call that finds `remaining == 0`). -/
def completeOnePhase (s : PomodoroSession) : PomodoroSession :=
  runTicks (s.start 0).2 61

/-- Session states along the run: after each completed Work or break
phase, always under `cfg60`. -/
def afterWork1 : PomodoroSession := completeOnePhase (PomodoroSession.new cfg60)

def afterBreak1 : PomodoroSession := completeOnePhase afterWork1

def afterWork2 : PomodoroSession := completeOnePhase afterBreak1

def afterBreak2 : PomodoroSession := completeOnePhase afterWork2

def afterWork3 : PomodoroSession := completeOnePhase afterBreak2

set_option maxRecDepth 8000 in
/-- C1, evaluated on the code at the failing input: with
`cycles_until_long_break = 4`, the 1st and 2nd Work completions transition
to ShortBreak and each break completion returns to Work, but the 3rd Work
completion already transitions to LongBreak — not ShortBreak as the
claimed schedule (long break only after the 4th) requires —  because
`complete_phase` increments `cycle_count` before calling
`PomodoroPhase::next`, which adds 1 again. -/
theorem third_work_completion_reaches_long_break :
    afterWork1.phase = PomodoroPhase.ShortBreak ∧ afterWork1.cycle_count = 1 ∧
    afterBreak1.phase = PomodoroPhase.Work ∧
    afterWork2.phase = PomodoroPhase.ShortBreak ∧ afterWork2.cycle_count = 2 ∧
    afterBreak2.phase = PomodoroPhase.Work ∧
    afterWork3.cycle_count = 3 ∧
    afterWork3.phase = PomodoroPhase.LongBreak ∧
    afterWork3.phase ≠ PomodoroPhase.ShortBreak := by
  decide

end Pomodoroflow
